import Mathlib

/-!
Verification of the marketsAI environment family against its specification.

The repository implements four reinforcement-learning environments:

* `Capital_planner_ma` (src/marketsai/capital_mkts/capital_planner_ma.py)
* `Townsend` (src/marketsai/economies/townsend/townsend_nested.py)
* `DiffDemandDiscrete` (src/marketsai/markets/diff_demand.py)
* `Durable_sgm` (src/marketsai/markets/durable_sgm.py)

This file embeds the per-step transition, reward, shock-schedule and
observation-assembly computations of those environments shallowly in Lean.
Python floats are modelled as elements of a linear ordered field (usually
instantiated at `ℚ` or `ℝ`); fallible operations (dictionary/attribute
lookup) are modelled with `Option`.  List comprehensions over `range(n)`
become `List.map` over `List.range n`, preserving the order of evaluation
of the source.
-/

/- ===================================================================
   Capital_planner_ma: action decoding and budget correction
   (capital_planner_ma.py, `step`, lines 264-277)
   =================================================================== -/
/-- Unsquashing of one bounded action component:
`(action + 1) / 2 * maxS`, as in capital_planner_ma.py line 266
(also townsend_nested.py line 255 and durable_sgm.py line 68 with their
own `maxS` values). -/
def unsquash {α : Type} [Field α] (maxS a : α) : α :=
  (a + 1) / 2 * maxS

/-- Per-capital-good savings ceiling
`self.max_s_ij = self.max_savings / self.n_capital * 1.5`
(capital_planner_ma.py line 85). -/
def maxSij {α : Type} [Field α] (maxSavings : α) (nCapital : ℕ) : α :=
  maxSavings / (nCapital : α) * (3 / 2)

/-- Decoded savings row of one household: each action component unsquashed
(capital_planner_ma.py lines 264-270, inner comprehension). -/
def sRow {α : Type} [Field α] (maxS : α) (acts : List α) : List α :=
  acts.map (unsquash maxS)

/-- Budget correction of one household's savings row
(capital_planner_ma.py lines 273-277): if the row sums above 1 every entry
is divided by the (old) sum and the penalty flag is set to 1, otherwise the
row is returned unchanged with flag 0.  In the source the flag starts at 0
(line 273) and is overwritten inside the `if` (line 277); the division uses
`np.sum(s_ij[i])` of the not-yet-reassigned row, so every entry is divided
by the same original sum. -/
def bgtCorrect {α : Type} [LinearOrderedField α] (row : List α) : List α × ℕ :=
  if 1 < row.sum then (row.map (fun x => x / row.sum), 1) else (row, 0)

/- ===================================================================
   Observation assembly: "put your own state first"
   (capital_planner_ma.py lines 217-233 and 354-378,
    townsend_nested.py lines 192-202 and 285-296,
    diff_demand.py lines 85-91)
   =================================================================== -/
/-- Python comprehension `[x for z, x in enumerate(lst) if z != i]`:
the entries of `lst` other than the one at index `i`, in original order
(capital_planner_ma.py lines 220, 226, 362, 368; townsend_nested.py
lines 194-196, 288-290). -/
def othersOf {α : Type} (l : List α) (i : ℕ) : List α :=
  ((l.enum.filter (fun p => p.1 != i)).map Prod.snd)

/-- Python expression `[lst[i]] + [x for z, x in enumerate(lst) if z != i]`:
own entry first, then the others.  `dflt` stands in for Python's
out-of-range error and is never reached at the in-range indices the
environments use. -/
def ownFirst {α : Type} (dflt : α) (l : List α) (i : ℕ) : List α :=
  l.getD i dflt :: othersOf l i

/-- Self-first view as the specification words it (spec.md sections 3, 4.5):
agent i's own sub-state first, followed by the other agents' sub-states in
original index order with i excluded.  Written from the spec, to be
compared with the observation assemblers embedded from the code. -/
def specSelfFirstView {α : Type} (dflt : α) (l : List α) (i : ℕ) : List α :=
  l.getD i dflt :: l.eraseIdx i

/-- Per-household capital observation of Capital_planner_ma: own capital
row first, the other households' rows after, flattened
(capital_planner_ma.py lines 219-224 in reset, 361-366 in step). -/
def plannerObsK {α : Type} (kij : List (List α)) (i : ℕ) : List α :=
  (ownFirst [] kij i).flatten

/-- Per-household idiosyncratic-shock observation of Capital_planner_ma:
own shock first, the others after (capital_planner_ma.py lines 225-227,
367-369). -/
def plannerObsShocks (sh : List ℕ) (i : ℕ) : List ℕ :=
  ownFirst 0 sh i

/-- Per-household observation tuple of Capital_planner_ma
(capital_planner_ma.py lines 230-233 in reset and 371-378 in step):
capital stocks self-first, idiosyncratic shock ids self-first, and the
shared aggregate shock id last. -/
def plannerObs {α : Type} (kij : List (List α)) (sh : List ℕ) (agg : ℕ)
    (i : ℕ) : List α × List ℕ × ℕ :=
  (plannerObsK kij i, plannerObsShocks sh i, agg)

/-- Per-industry observation of Townsend.step (townsend_nested.py lines
286-296): own new capital stock, then the prices self-first. -/
def townsendObs {α : Type} [Zero α] (kNew prices : List α) (i : ℕ) : List α :=
  kNew.getD i 0 :: ownFirst 0 prices i

/-- Next-period observation of DiffDemandDiscrete.step (diff_demand.py
lines 87-91): agent i's observation is built by appending `actions[j]` for
j = 0..n-1, i.e. the joint action vector in original index order — the
same vector for every agent, with no self-first reordering.  The unused
parameter `i` mirrors the outer loop index of the source. -/
def diffDemandObs (acts : List ℕ) (i : ℕ) : List ℕ :=
  (List.range acts.length).map (fun j => acts.getD j 0)

/- ===================================================================
   Done flags
   (capital_planner_ma.py lines 383-387, townsend_nested.py lines 317-321,
    durable_sgm.py line 85, diff_demand.py lines 118-134)
   =================================================================== -/
/-- All-done flag of Capital_planner_ma.step (lines 383-387), computed on
the already incremented timestep: false while `timestep < horizon`,
true otherwise. -/
def plannerDoneAll (horizon t : ℕ) : Bool :=
  if t < horizon then false else true

/-- All-done flag of Townsend.step (townsend_nested.py lines 317-321),
same form as the capital planner. -/
def townsendDoneAll (horizon t : ℕ) : Bool :=
  if t < horizon then false else true

/-- Done flag of Durable_sgm.step (durable_sgm.py line 85): the constant
False. -/
def durableDone : Bool := false

/-- One DiffDemandDiscrete.step acting on the `num_steps` counter
(diff_demand.py lines 118-134): the done flag compares the counter BEFORE
the trailing `self.num_steps += 1`.  Returns the done flag of this call and
the new counter. -/
def diffDemandStepDone (finitePeriods : Bool) (nPeriods numSteps : ℕ) :
    Bool × ℕ :=
  ((if finitePeriods then decide (nPeriods ≤ numSteps) else false),
    numSteps + 1)

/-- DiffDemandDiscrete episode: `reset` puts the counter at 0
(diff_demand.py line 71); `diffDemandRun f p k` is the (done flag of the
k-th step call, counter) after k successive step calls.  The `false` at
k = 0 is a placeholder: no call has been made yet. -/
def diffDemandRun (finitePeriods : Bool) (nPeriods : ℕ) : ℕ → Bool × ℕ
  | 0 => (false, 0)
  | k + 1 =>
    diffDemandStepDone finitePeriods nPeriods
      (diffDemandRun finitePeriods nPeriods k).2

/- ===================================================================
   Deterministic shock schedules for evaluation/analysis modes
   (capital_planner_ma.py lines 87-118 built in __init__,
    consumed in step at lines 332-338;
    townsend_nested.py lines 83-99 built in __init__,
    consumed at lines 229-231)
   =================================================================== -/
/-- Evaluation-mode aggregate shock id at timestep t
(capital_planner_ma.py lines 89-95): entry 0 is 0 and entry t >= 1 is
`1 if (t // (1 / P01) + 1) % 2 == 0 else 0` where P01 is
`shock_agg_transition[0][1]`; Python floor division on the float quotient
is the integer floor of the exact quotient. -/
def plannerEvalAggId (p : ℚ) (t : ℕ) : ℕ :=
  if t = 0 then 0
  else if (⌊(t : ℚ) / (1 / p)⌋ + 1) % 2 = 0 then 1 else 0

/-- Evaluation-mode idiosyncratic shock ids at timestep t
(capital_planner_ma.py lines 96-102): entry 0 is `[1 - i % 2]`, and entry
t >= 1 alternates between `[i % 2]` and `[1 - i % 2]` on the same floor
condition with P01 = `shock_idtc_transition[0][1]`. -/
def plannerEvalIdtcIds (p : ℚ) (nHH t : ℕ) : List ℕ :=
  if t = 0 then (List.range nHH).map (fun i => 1 - i % 2)
  else if (⌊(t : ℚ) / (1 / p)⌋ + 1) % 2 = 0 then
    (List.range nHH).map (fun i => i % 2)
  else (List.range nHH).map (fun i => 1 - i % 2)

/-- Analysis-mode aggregate shock id at timestep t
(capital_planner_ma.py lines 105-111): the same formula as the
evaluation-mode aggregate schedule. -/
def plannerAnalysisAggId (p : ℚ) (t : ℕ) : ℕ :=
  if t = 0 then 0
  else if (⌊(t : ℚ) / (1 / p)⌋ + 1) % 2 = 0 then 1 else 0

/-- Analysis-mode idiosyncratic shock ids at timestep t
(capital_planner_ma.py lines 112-118): both branches of the source's
conditional produce the all-zero list. -/
def plannerAnalysisIdtcIds (p : ℚ) (nHH t : ℕ) : List ℕ :=
  if t = 0 then (List.range nHH).map (fun _ => 0)
  else if (⌊(t : ℚ) / (1 / p)⌋ + 1) % 2 = 0 then
    (List.range nHH).map (fun _ => 0)
  else (List.range nHH).map (fun _ => 0)

/-- The dictionary `self.shocks_eval_agg` built once at construction with
keys 0..horizon (capital_planner_ma.py lines 89-95); lookup outside the
key range is a KeyError, modelled as none. -/
def plannerEvalAggDict (p : ℚ) (horizon t : ℕ) : Option ℕ :=
  if t ≤ horizon then some (plannerEvalAggId p t) else none

/-- The dictionary `self.shocks_eval_idtc`, keys 0..horizon
(capital_planner_ma.py lines 96-102). -/
def plannerEvalIdtcDict (p : ℚ) (nHH horizon t : ℕ) : Option (List ℕ) :=
  if t ≤ horizon then some (plannerEvalIdtcIds p nHH t) else none

/-- The dictionary `self.shocks_analysis_agg`, keys 0..horizon
(capital_planner_ma.py lines 105-111). -/
def plannerAnalysisAggDict (p : ℚ) (horizon t : ℕ) : Option ℕ :=
  if t ≤ horizon then some (plannerAnalysisAggId p t) else none

/-- The dictionary `self.shocks_analysis_idtc`, keys 0..horizon
(capital_planner_ma.py lines 112-118). -/
def plannerAnalysisIdtcDict (p : ℚ) (nHH horizon t : ℕ) : Option (List ℕ) :=
  if t ≤ horizon then some (plannerAnalysisIdtcIds p nHH t) else none

/-- Shock update of Capital_planner_ma.step in evaluation mode
(capital_planner_ma.py lines 333-335): the new shock ids are read from the
precomputed dictionaries at the (already incremented) timestep; nothing
else of the state or the actions enters. -/
def plannerStepShocksEval (pIdtc pAgg : ℚ) (nHH horizon tNew : ℕ) :
    Option (List ℕ × ℕ) := do
  let idtc ← plannerEvalIdtcDict pIdtc nHH horizon tNew
  let agg ← plannerEvalAggDict pAgg horizon tNew
  pure (idtc, agg)

/-- Shock update of Capital_planner_ma.step in analysis mode
(capital_planner_ma.py lines 336-338). -/
def plannerStepShocksAnalysis (pIdtc pAgg : ℚ) (nHH horizon tNew : ℕ) :
    Option (List ℕ × ℕ) := do
  let idtc ← plannerAnalysisIdtcDict pIdtc nHH horizon tNew
  let agg ← plannerAnalysisAggDict pAgg horizon tNew
  pure (idtc, agg)

/-- The seed Townsend.__init__ hands to `np.random.default_rng`
(townsend_nested.py lines 86-89): `seed_eval` in eval mode, `seed_analysis`
otherwise. -/
def townsendSeedUsed (evalMode : Bool) (seedEval seedAnalysis : ℕ) : ℕ :=
  if evalMode then seedEval else seedAnalysis

/-- The dictionary `self.shocks_agg_seeded` (townsend_nested.py lines
90-92): keys 0..horizon, entry t being the t-th variate of the seeded
generator.  `draw seed k` stands for the k-th normal variate of
`np.random.default_rng(seed)`, a deterministic function of the seed. -/
def townsendShocksAggSeeded (draw : ℕ → ℕ → ℝ) (seed horizon t : ℕ) :
    Option ℝ :=
  if t ≤ horizon then some (draw seed t) else none

/-- The dictionary `self.shocks_idtc_seeded` (townsend_nested.py lines
93-99): built after the aggregate dictionary from the same generator, so
entry (t, i) is variate number `horizon + 1 + t * n_industries + i`. -/
def townsendShocksIdtcSeeded (draw : ℕ → ℕ → ℝ) (seed horizon nInd t : ℕ) :
    Option (List ℝ) :=
  if t ≤ horizon then
    some ((List.range nInd).map
      (fun i => draw seed (horizon + 1 + t * nInd + i)))
  else none

/-- Shock update of Townsend.step in eval or analysis mode
(townsend_nested.py lines 229-231): both shocks are read from the seeded
dictionaries at the incremented timestep. -/
def townsendStepShocksSeeded (draw : ℕ → ℕ → ℝ) (seed horizon nInd tNew : ℕ) :
    Option (List ℝ × ℝ) := do
  let idtc ← townsendShocksIdtcSeeded draw seed horizon nInd tNew
  let agg ← townsendShocksAggSeeded draw seed horizon tNew
  pure (idtc, agg)

/- ===================================================================
   Capital_planner_ma: production, consumption, utility and the
   capital transition (capital_planner_ma.py lines 280-331)
   =================================================================== -/
/-- Slicing of the flat stock list into per-household rows:
`list(k[i * n_capital : i * n_capital + n_capital])`
(capital_planner_ma.py lines 280-283). -/
def plannerKIJ (nHH nCapital : ℕ) (k : List ℝ) : List (List ℝ) :=
  (List.range nHH).map (fun i => (k.drop (i * nCapital)).take nCapital)

/-- Cobb-Douglas capital bundle of household i
(capital_planner_ma.py lines 284-287): the product over j of
`k_ij[i][j] ** (1 / n_capital)`, starting from 1. -/
noncomputable def plannerKBundle (nCapital : ℕ) (kIJ : List (List ℝ))
    (i : ℕ) : ℝ :=
  ((List.range nCapital).map
    (fun j => ((kIJ.getD i []).getD j 0) ^ ((1 : ℝ) / (nCapital : ℝ)))).prod

/-- Per-household production `y_i = shocks_idtc[i] * shock_agg *
k_bundle_i[i] ** alpha` (capital_planner_ma.py lines 290-293). -/
noncomputable def plannerYList (alpha : ℝ) (shocksIdtc : List ℝ)
    (shockAgg : ℝ) (nHH nCapital : ℕ) (kIJ : List (List ℝ)) : List ℝ :=
  (List.range nHH).map
    (fun i => shocksIdtc.getD i 0 * shockAgg *
      (plannerKBundle nCapital kIJ i) ^ alpha)

/-- Per-household consumption `c_i = y_i[i] * (1 - np.sum(s_ij[i]))`
(capital_planner_ma.py line 295). -/
noncomputable def plannerCAt (y : List ℝ) (sIJ : List (List ℝ)) (i : ℕ) : ℝ :=
  y.getD i 0 * (1 - (sIJ.getD i []).sum)

/-- Per-household utility (capital_planner_ma.py lines 297-300):
`np.log(c_i[i]) if c_i[i] > 0 else -self.bgt_penalty`. -/
noncomputable def plannerUtility (bgtPenalty c : ℝ) : ℝ :=
  if 0 < c then Real.log c else -bgtPenalty

/-- Utility list over households (capital_planner_ma.py lines 297-300). -/
noncomputable def plannerUtilityList (bgtPenalty : ℝ) (c : List ℝ) : List ℝ :=
  c.map (plannerUtility bgtPenalty)

/-- Intended investment expenditure of household i on capital good j,
`inv_exp_ij = s_ij[i][j] * y_i[i]` (capital_planner_ma.py lines 302-305). -/
noncomputable def plannerInvExpIJ (sIJ : List (List ℝ)) (y : List ℝ)
    (i j : ℕ) : ℝ :=
  (sIJ.getD i []).getD j 0 * y.getD i 0

/-- Total investment expenditure on capital good j,
`inv_exp_j = sum_i inv_exp_ij[i][j]` (capital_planner_ma.py lines
307-310). -/
noncomputable def plannerInvExpJ (nHH : ℕ) (sIJ : List (List ℝ))
    (y : List ℝ) (j : ℕ) : ℝ :=
  ((List.range nHH).map (fun i => plannerInvExpIJ sIJ y i j)).sum

/-- New units of capital good j produced from total expenditure through the
square-root adjustment-cost technology,
`inv_j = sqrt((2 / phi) * inv_exp_j[j])` (capital_planner_ma.py lines
311-314). -/
noncomputable def plannerInvJ (phi : ℝ) (nHH : ℕ) (sIJ : List (List ℝ))
    (y : List ℝ) (j : ℕ) : ℝ :=
  Real.sqrt ((2 / phi) * plannerInvExpJ nHH sIJ y j)

/-- Household i's share of the new units of good j,
`(inv_exp_ij[i][j] / max(inv_exp_j[j], 0.0001)) * inv_j[j]`
(capital_planner_ma.py lines 316-322). -/
noncomputable def plannerInvIJ (phi : ℝ) (nHH : ℕ) (sIJ : List (List ℝ))
    (y : List ℝ) (i j : ℕ) : ℝ :=
  (plannerInvExpIJ sIJ y i j / max (plannerInvExpJ nHH sIJ y j) 0.0001) *
    plannerInvJ phi nHH sIJ y j

/-- Next-period stock of household i in capital good j,
`k_ij[i][j] * (1 - delta) + inv_ij[i][j]` (capital_planner_ma.py lines
325-331); no ceiling is applied in this environment. -/
noncomputable def plannerKNewIJ (delta phi : ℝ) (nHH : ℕ)
    (kIJ sIJ : List (List ℝ)) (y : List ℝ) (i j : ℕ) : ℝ :=
  (kIJ.getD i []).getD j 0 * (1 - delta) + plannerInvIJ phi nHH sIJ y i j

/- ===================================================================
   Townsend: transition, prices and profit (townsend_nested.py
   lines 252-305, default normalize=False branch)
   =================================================================== -/
/-- Townsend decoded savings rates (townsend_nested.py lines 254-257). -/
noncomputable def townsendSList (maxSavings : ℝ) (acts : List ℝ) : List ℝ :=
  acts.map (unsquash maxSavings)

/-- Townsend output `y = tfp * k[i] ** alpha` (lines 260-263). -/
noncomputable def townsendYAt (tfp alpha : ℝ) (k : List ℝ) (i : ℕ) : ℝ :=
  tfp * (k.getD i 0) ^ alpha

/-- Townsend price `max(max_price - A * y[i] + u[i], 0)` (lines 276-279). -/
noncomputable def townsendPriceAt (maxPrice A : ℝ) (y u : List ℝ)
    (i : ℕ) : ℝ :=
  max (maxPrice - A * y.getD i 0 + u.getD i 0) 0

/-- Townsend capital transition
`min(k[i] * (1 - delta) + s[i] * y[i], max_cap)` (lines 280-283):
linear accumulation of the decoded investment, clamped from above by the
configured ceiling `max_cap`. -/
noncomputable def townsendKNewAt (delta maxCap : ℝ) (k s y : List ℝ)
    (i : ℕ) : ℝ :=
  min (k.getD i 0 * (1 - delta) + s.getD i 0 * y.getD i 0) maxCap

/-- Townsend per-industry profit (lines 300-305):
revenue on the consumed share minus the rental bill minus the QUADRATIC
adjustment cost `phi * (k_new[i] - k[i]) ** 2`. -/
noncomputable def townsendUtilityAt (phi : ℝ)
    (prices s y shockRent k kNew : List ℝ) (i : ℕ) : ℝ :=
  prices.getD i 0 * (1 - s.getD i 0) * y.getD i 0 -
    shockRent.getD i 0 * k.getD i 0 -
    phi * (kNew.getD i 0 - k.getD i 0) ^ 2

/-- Next-stock formula exactly as the specification words it
(spec.md section 4.3): `stock_old * (1 - depreciation) + investment`.
Written from the spec, for comparison with the embedded transitions. -/
noncomputable def specNextStock (stockOld depreciation investment : ℝ) : ℝ :=
  stockOld * (1 - depreciation) + investment

/- ===================================================================
   DiffDemandDiscrete: logit demand reward (diff_demand.py lines 95-116)
   =================================================================== -/
/-- Price of agent i decoded from its discrete action
(diff_demand.py lines 95-100):
`lower_price[i] + (higher_price[i] - lower_price[i]) *
(actions[i] / (gridpoints - 1))`. -/
noncomputable def diffPriceAt (lower higher : List ℝ) (gridpoints : ℕ)
    (acts : List ℕ) (i : ℕ) : ℝ :=
  lower.getD i 0 + (higher.getD i 0 - lower.getD i 0) *
    ((acts.getD i 0 : ℝ) / ((gridpoints : ℝ) - 1))

/-- Price list over the agents (diff_demand.py lines 95-100). -/
noncomputable def diffPrices (lower higher : List ℝ) (gridpoints : ℕ)
    (acts : List ℕ) (n : ℕ) : List ℝ :=
  (List.range n).map (diffPriceAt lower higher gridpoints acts)

/-- Unnormalized demand weight of agent i (diff_demand.py lines 102-105):
`math.e ** ((values[i] - prices[i]) / substitution)`, i.e. the float power
of Euler's number. -/
noncomputable def diffNotnormAt (values prices : List ℝ) (mu : ℝ)
    (i : ℕ) : ℝ :=
  Real.exp 1 ^ ((values.getD i 0 - prices.getD i 0) / mu)

/-- Demand denominator (diff_demand.py lines 107-109):
`math.e ** (ext_demand / substitution) + sum of the weights`. -/
noncomputable def diffDenom (values prices : List ℝ) (mu extDemand : ℝ)
    (n : ℕ) : ℝ :=
  Real.exp 1 ^ (extDemand / mu) +
    ((List.range n).map (diffNotnormAt values prices mu)).sum

/-- Reward of agent i (diff_demand.py lines 111-114):
`(prices[i] - cost[i]) * rewards_notnorm[i] / rewards_denom`. -/
noncomputable def diffRewardAt (cost values prices : List ℝ)
    (mu extDemand : ℝ) (n i : ℕ) : ℝ :=
  (prices.getD i 0 - cost.getD i 0) * diffNotnormAt values prices mu i /
    diffDenom values prices mu extDemand n

/- ===================================================================
   Durable_sgm.step (durable_sgm.py lines 62-97)
   =================================================================== -/
/-- Income `y = max(tfp * k_old ** alpha, 0.00001)`
(durable_sgm.py line 69). -/
noncomputable def durableY (tfp alpha k : ℝ) : ℝ :=
  max (tfp * k ^ alpha) 0.00001

/-- The consumption value handed to the utility function,
`max(y * (1 - s), 0.00001)` with `s = (action[0] + 1) / 2 * max_saving`
(durable_sgm.py lines 68, 80). -/
noncomputable def durableUtilArg (tfp alpha maxSaving k a : ℝ) : ℝ :=
  max (durableY tfp alpha k * (1 - unsquash maxSaving a)) 0.00001

/-- Reward `max(utility_function(...) + 1, -1000)` (durable_sgm.py line
80); the utility function itself (a CRRA instance from
marketsai.functions.functions, not part of this repository's sources) is
kept abstract as `u`. -/
noncomputable def durableRew (u : ℝ → ℝ) (tfp alpha maxSaving k a : ℝ) : ℝ :=
  max (u (durableUtilArg tfp alpha maxSaving k a) + 1) (-1000)

/-- Capital transition `min(k_old * (1 - depreciation) + s, high)`
(durable_sgm.py lines 71-74); in the source `high` is
`observation_space.high`, the float infinity, so no finite ceiling binds. -/
noncomputable def durableKNew (depreciation obsHigh maxSaving k a : ℝ) : ℝ :=
  min (k * (1 - depreciation) + unsquash maxSaving a) obsHigh

/- ===================================================================
   Info dictionaries returned by step
   (capital_planner_ma.py lines 389-420, townsend_nested.py lines 323-356,
    diff_demand.py line 132, durable_sgm.py lines 87-94)
   =================================================================== -/
/-- One entry of the planner's analysis-mode info dictionary: the
designated household hh_0 carries the cross-agent lists (glob), every other
household carries its own components (ind)
(capital_planner_ma.py lines 395-418). -/
inductive PlannerInfoEntry where
  | glob (savings : List (List ℝ)) (reward : ℝ) (income consumption : List ℝ)
      (bgtPenalty : List ℕ) (capital capitalNew : List (List ℝ))
  | ind (savings : List ℝ) (reward : ℝ) (income consumption : ℝ)
      (bgtPenalty : ℕ) (capital capitalNew : List ℝ)

/-- Info dictionary of Capital_planner_ma.step keyed by household index
(capital_planner_ma.py lines 392-420): empty unless analysis mode is on;
in analysis mode household 0 gets the global entry and households 1..n-1
get their individual entries. -/
noncomputable def plannerInfo (analysisMode : Bool) (nHH : ℕ)
    (sIJ : List (List ℝ)) (meanU : ℝ) (y c : List ℝ) (flags : List ℕ)
    (kIJ kNew : List (List ℝ)) : List (ℕ × PlannerInfoEntry) :=
  if analysisMode = false then []
  else
    (0, PlannerInfoEntry.glob sIJ meanU y c flags kIJ kNew) ::
      (List.range (nHH - 1)).map (fun m =>
        (m + 1, PlannerInfoEntry.ind (sIJ.getD (m + 1) []) meanU
          (y.getD (m + 1) 0) (c.getD (m + 1) 0) (flags.getD (m + 1) 0)
          (kIJ.getD (m + 1) []) (kNew.getD (m + 1) [])))

/-- One entry of Townsend's info dictionary (townsend_nested.py lines
333-354): firm_0 carries the cross-agent lists, others their own scalars. -/
inductive TownsendInfoEntry where
  | glob (savings reward income capital capitalNew prices : List ℝ)
  | ind (savings reward income capital capitalNew prices : ℝ)

/-- Info dictionary of Townsend.step keyed by industry index
(townsend_nested.py lines 326-356): empty unless analysis mode or
simulation mode is on. -/
noncomputable def townsendInfo (analysisMode simulMode : Bool) (nInd : ℕ)
    (s utility y k kNew prices : List ℝ) : List (ℕ × TownsendInfoEntry) :=
  if analysisMode = false ∧ simulMode = false then []
  else
    (0, TownsendInfoEntry.glob s utility y k kNew prices) ::
      (List.range (nInd - 1)).map (fun m =>
        (m + 1, TownsendInfoEntry.ind (s.getD (m + 1) 0)
          (utility.getD (m + 1) 0) (y.getD (m + 1) 0) (k.getD (m + 1) 0)
          (kNew.getD (m + 1) 0) (prices.getD (m + 1) 0)))

/-- Info dictionary of DiffDemandDiscrete.step (diff_demand.py line 132):
unconditionally the per-agent prices, in every mode. -/
noncomputable def diffInfo (prices : List ℝ) (n : ℕ) : List (ℕ × ℝ) :=
  (List.range n).map (fun i => (i, prices.getD i 0))

/-- Info dictionary of Durable_sgm.step (durable_sgm.py lines 88-94):
unconditionally a five-entry diagnostic record. -/
noncomputable def durableInfo (s rew y kOld kNew : ℝ) : List (String × ℝ) :=
  [("savings_rate", s), ("rewards", rew), ("income", y),
   ("capital_old", kOld), ("capital_new", kNew)]

/- ===================================================================
   Townsend.reset and the missing n_firms attribute
   (townsend_nested.py lines 134-211)
   =================================================================== -/
/-- Integer-valued attributes that Townsend.__init__ assigns on `self`
(townsend_nested.py lines 46-52: horizon, n_industries, seed_eval,
seed_analysis; the remaining assignments in __init__ bind floats, dicts,
spaces and booleans under other names).  No statement of the class ever
assigns `n_firms`, so looking it up raises AttributeError, modelled as
none. -/
def townsendGetNatAttr (horizon nIndustries seedEval seedAnalysis : ℕ)
    (name : String) : Option ℕ :=
  if name = "horizon" then some horizon
  else if name = "n_industries" then some nIndustries
  else if name = "seed_eval" then some seedEval
  else if name = "seed_analysis" then some seedAnalysis
  else none

/-- Townsend.reset (townsend_nested.py lines 134-211, default
normalize=False path).  Every mode branch builds `k_init` over
`range(self.n_industries * self.n_firms)` (lines 143-146 eval, 152-155
analysis, 162-165 random), so reset begins by reading both attributes;
the rest of the body (initial shocks from the seeded dictionaries or fresh
draws, theta_0, u, y, prices and the self-first observation assembly)
follows in the Option monad.  `draw` is the seeded generator of the
precomputed dictionaries, `drawUnif` the `random.uniform` stream of the
random branch and `drawIdtc` its `np.random.normal` stream. -/
noncomputable def townsendReset (evalMode analysisMode : Bool)
    (horizon nIndustries seedEval seedAnalysis : ℕ)
    (kSs maxPrice A tfp alpha theta0 : ℝ) (draw : ℕ → ℕ → ℝ)
    (drawUnif drawIdtc : ℕ → ℝ) : Option (List (List ℝ)) := do
  let nInd ← townsendGetNatAttr horizon nIndustries seedEval seedAnalysis
    "n_industries"
  let nFirms ← townsendGetNatAttr horizon nIndustries seedEval seedAnalysis
    "n_firms"
  let kInit : List ℝ :=
    if evalMode = true ∨ analysisMode = true then
      (List.range (nInd * nFirms)).map
        (fun i => if i % 2 = 0 then kSs * 0.9 else kSs * 0.8)
    else
      (List.range (nInd * nFirms)).map (fun i => drawUnif i)
  let shockIdtcInit : List ℝ ←
    if evalMode = true ∨ analysisMode = true then
      townsendShocksIdtcSeeded draw
        (townsendSeedUsed evalMode seedEval seedAnalysis) horizon nInd 0
    else pure ((List.range nInd).map (fun i => drawIdtc i))
  let uInit := (List.range nInd).map
    (fun i => theta0 + shockIdtcInit.getD i 0)
  let yInit := (List.range nInd).map
    (fun i => tfp * (kInit.getD i 0) ^ alpha)
  let pInit := (List.range nInd).map
    (fun i => maxPrice - A * yInit.getD i 0 + uInit.getD i 0)
  pure ((List.range nInd).map (fun i => townsendObs kInit pInit i))

/- ===================================================================
   Theorems
   =================================================================== -/

theorem list_sum_map_div {α : Type} [DivisionRing α] (l : List α) (c : α) :
    (l.map (fun x => x / c)).sum = l.sum / c := by
  induction l with
  | nil => simp
  | cons a l ih => simp [ih, add_div]

/-- C1: for every agent whose decoded per-capital-good savings vector
(each entry the unsquashing of an action component in `[-1,1]` into
`[0, maxS]`) sums above 1, the budget correction divides every entry by
that sum, the corrected row sums to exactly 1 and the penalty flag is 1;
when the decoded sum is at most 1 the row is unchanged and the flag is 0.
The correction is a total function, so no error is raised in either case. -/
theorem C1_budget_rescale {α : Type} [LinearOrderedField α]
    (maxS : α) (acts : List α) :
    (1 < (sRow maxS acts).sum →
      (bgtCorrect (sRow maxS acts)).1.sum = 1 ∧
      (bgtCorrect (sRow maxS acts)).2 = 1) ∧
    ((sRow maxS acts).sum ≤ 1 →
      (bgtCorrect (sRow maxS acts)).1 = sRow maxS acts ∧
      (bgtCorrect (sRow maxS acts)).2 = 0) ∧
    (∀ a : α, -1 ≤ a → a ≤ 1 → 0 ≤ maxS →
      0 ≤ unsquash maxS a ∧ unsquash maxS a ≤ maxS) := by
  refine ⟨fun h => ?_, fun h => ?_, fun a ha hb hm => ?_⟩
  · have hne : (sRow maxS acts).sum ≠ 0 :=
      ne_of_gt (lt_trans zero_lt_one h)
    unfold bgtCorrect
    rw [if_pos h]
    exact ⟨by rw [list_sum_map_div, div_self hne], rfl⟩
  · unfold bgtCorrect
    rw [if_neg (not_lt.mpr h)]
    exact ⟨rfl, rfl⟩
  · constructor
    · have h1 : 0 ≤ (a + 1) / 2 := by linarith
      exact mul_nonneg h1 hm
    · have h1 : (a + 1) / 2 ≤ 1 := by linarith
      calc (a + 1) / 2 * maxS ≤ 1 * maxS := by
            exact mul_le_mul_of_nonneg_right h1 hm
        _ = maxS := one_mul maxS

/-- Witness for C1 at concrete inputs: with `maxS = 1` the actions `[1, 1]`
decode to `[1, 1]` (sum 2 > 1) and are rescaled to sum 1 with flag 1, while
the single action `[0]` decodes to `[1/2]` (sum ≤ 1) and is unchanged with
flag 0. -/
theorem C1_budget_rescale_witness :
    ((bgtCorrect (sRow (1 : ℚ) [1, 1])).1.sum = 1 ∧
      (bgtCorrect (sRow (1 : ℚ) [1, 1])).2 = 1) ∧
    ((bgtCorrect (sRow (1 : ℚ) [0])).1 = sRow (1 : ℚ) [0] ∧
      (bgtCorrect (sRow (1 : ℚ) [0])).2 = 0) ∧
    (0 ≤ unsquash (1 : ℚ) 0 ∧ unsquash (1 : ℚ) 0 ≤ 1) :=
  ⟨(C1_budget_rescale (1 : ℚ) [1, 1]).1
      (by norm_num [sRow, unsquash]),
   (C1_budget_rescale (1 : ℚ) [0]).2.1
      (by norm_num [sRow, unsquash]),
   (C1_budget_rescale (1 : ℚ) [0]).2.2 0
      (by norm_num) (by norm_num) (by norm_num)⟩

theorem map_snd_enumFrom {α : Type} :
    ∀ (n : ℕ) (l : List α), (List.enumFrom n l).map Prod.snd = l := by
  intro n l
  induction l generalizing n with
  | nil => rfl
  | cons a l ih => simp [List.enumFrom, ih]

theorem filter_enumFrom_ne_of_lt {α : Type} :
    ∀ (l : List α) (m j : ℕ), j < m →
      (List.enumFrom m l).filter (fun p => p.1 != j) = List.enumFrom m l := by
  intro l
  induction l with
  | nil => intro m j _; rfl
  | cons a l ih =>
    intro m j h
    have hne : ((m, a).1 != j) = true := bne_iff_ne.mpr (Nat.ne_of_gt h)
    show List.filter (fun p => p.1 != j) ((m, a) :: List.enumFrom (m + 1) l) =
      (m, a) :: List.enumFrom (m + 1) l
    rw [List.filter_cons_of_pos (p := fun p => p.1 != j) (a := (m, a)) hne,
      ih (m + 1) j (Nat.lt_succ_of_lt h)]

theorem othersOf_enumFrom_eq_eraseIdx {α : Type} :
    ∀ (l : List α) (n i : ℕ),
      ((List.enumFrom n l).filter (fun p => p.1 != n + i)).map Prod.snd =
        l.eraseIdx i := by
  intro l
  induction l with
  | nil => intro n i; rfl
  | cons a l ih =>
    intro n i
    cases i with
    | zero =>
      have hhead : ¬(((n, a).1 != n + 0) = true) := by simp
      show (List.filter (fun p => p.1 != n + 0)
        ((n, a) :: List.enumFrom (n + 1) l)).map Prod.snd = List.eraseIdx (a :: l) 0
      rw [List.filter_cons_of_neg (p := fun p => p.1 != n + 0) (a := (n, a)) hhead,
        filter_enumFrom_ne_of_lt l (n + 1) (n + 0) (by omega)]
      simp [map_snd_enumFrom, List.eraseIdx]
    | succ i =>
      have hhead : (((n, a).1 != n + (i + 1)) = true) := by
        exact bne_iff_ne.mpr (by omega)
      show (List.filter (fun p => p.1 != n + (i + 1))
        ((n, a) :: List.enumFrom (n + 1) l)).map Prod.snd =
        List.eraseIdx (a :: l) (i + 1)
      rw [List.filter_cons_of_pos (p := fun p => p.1 != n + (i + 1))
        (a := (n, a)) hhead]
      have harith : n + (i + 1) = (n + 1) + i := by omega
      simp only [List.map, List.eraseIdx]
      rw [harith, ih (n + 1) i]

/-- The code's exclusion comprehension removes exactly the index-i entry. -/
theorem othersOf_eq_eraseIdx {α : Type} (l : List α) (i : ℕ) :
    othersOf l i = l.eraseIdx i := by
  have h := othersOf_enumFrom_eq_eraseIdx l 0 i
  simpa [othersOf, List.enum] using h

/-- Code-side own-first assembly coincides with the spec's self-first view:
the exclusion comprehension keeps the other entries in original index
order. -/
theorem ownFirst_eq_selfFirstView {α : Type} (dflt : α) (l : List α) (i : ℕ) :
    ownFirst dflt l i = specSelfFirstView dflt l i := by
  unfold ownFirst specSelfFirstView
  rw [othersOf_eq_eraseIdx]

theorem map_getD_range {α : Type} (d : α) (l : List α) :
    (List.range l.length).map (fun j => l.getD j d) = l := by
  apply List.ext_get
  · simp
  · intro n h1 h2
    simp [List.getElem?_eq_getElem h2]

/-- C4 (amended): the self-first observation convention holds for
Capital_planner_ma (capital observations, flattened, and idiosyncratic
shock observations, in both reset and step, which share these assemblers)
and for Townsend (own capital followed by prices self-first); but
DiffDemandDiscrete.step gives every agent the joint action vector in
original index order 0..n-1 — no self-first reordering, so its per-agent
observation starts with agent 0's action for every agent. -/
theorem C4_self_first_amended {α : Type} [Zero α] :
    (∀ (kij : List (List α)) (i : ℕ),
      plannerObsK kij i = (specSelfFirstView [] kij i).flatten) ∧
    (∀ (sh : List ℕ) (i : ℕ),
      plannerObsShocks sh i = specSelfFirstView 0 sh i) ∧
    (∀ (kNew prices : List α) (i : ℕ),
      townsendObs kNew prices i =
        kNew.getD i 0 :: specSelfFirstView 0 prices i) ∧
    (∀ (acts : List ℕ) (i : ℕ), diffDemandObs acts i = acts) := by
  refine ⟨fun kij i => ?_, fun sh i => ?_, fun kNew prices i => ?_,
    fun acts i => ?_⟩
  · unfold plannerObsK
    rw [ownFirst_eq_selfFirstView]
  · unfold plannerObsShocks
    rw [ownFirst_eq_selfFirstView]
  · unfold townsendObs
    rw [ownFirst_eq_selfFirstView]
  · unfold diffDemandObs
    exact map_getD_range 0 acts

/-- C4 counterexample: with two agents and joint actions `[3, 5]`,
DiffDemandDiscrete gives agent 1 the observation `[3, 5]`, not the
self-first view `[5, 3]` the claim requires for every environment of the
family. -/
theorem C4_diffdemand_counterexample :
    diffDemandObs [3, 5] 1 ≠ specSelfFirstView 0 [3, 5] 1 := by
  decide

theorem diffDemandRun_counter (f : Bool) (p : ℕ) :
    ∀ k : ℕ, (diffDemandRun f p k).2 = k := by
  intro k
  induction k with
  | zero => rfl
  | succ k ih => simp [diffDemandRun, diffDemandStepDone, ih]

/-- C6 (amended): within an episode (timestep at most the horizon) the
capital planner and Townsend return done all-true exactly when the number
of completed steps equals the configured horizon; Durable_sgm never
terminates; but DiffDemandDiscrete with `finite_periods` enabled compares
its counter before incrementing it, so its done flag after k completed
steps is true exactly when k ≥ n_periods + 1 — the flag first turns true
one step AFTER the configured horizon, not at it — and with
`finite_periods` disabled it never terminates. -/
theorem C6_done_amended :
    (∀ horizon t : ℕ, t ≤ horizon →
      (plannerDoneAll horizon t = true ↔ t = horizon)) ∧
    (∀ horizon t : ℕ, t ≤ horizon →
      (townsendDoneAll horizon t = true ↔ t = horizon)) ∧
    durableDone = false ∧
    (∀ nPeriods k : ℕ, 1 ≤ k →
      ((diffDemandRun true nPeriods k).1 = true ↔ nPeriods + 1 ≤ k)) ∧
    (∀ nPeriods k : ℕ, (diffDemandRun false nPeriods k).1 = false) := by
  refine ⟨fun h t ht => ?_, fun h t ht => ?_, rfl, fun p k hk => ?_,
    fun p k => ?_⟩
  · unfold plannerDoneAll
    constructor
    · intro hdone
      by_contra hne
      have hlt : t < h := lt_of_le_of_ne ht hne
      rw [if_pos hlt] at hdone
      exact Bool.false_ne_true hdone
    · intro he
      rw [if_neg (by omega)]
  · unfold townsendDoneAll
    constructor
    · intro hdone
      by_contra hne
      have hlt : t < h := lt_of_le_of_ne ht hne
      rw [if_pos hlt] at hdone
      exact Bool.false_ne_true hdone
    · intro he
      rw [if_neg (by omega)]
  · obtain ⟨m, rfl⟩ : ∃ m, k = m + 1 := ⟨k - 1, by omega⟩
    show (diffDemandStepDone true p (diffDemandRun true p m).2).1 = true ↔ _
    rw [diffDemandRun_counter]
    simp [diffDemandStepDone]
  · cases k with
    | zero => rfl
    | succ m =>
      show (diffDemandStepDone false p (diffDemandRun false p m).2).1 = false
      rfl

/-- Witness for C6 at concrete inputs: horizon 3 — the planner and Townsend
flags are true exactly at t = 3; after two step calls with n_periods = 1
the diff-demand flag is true since 2 ≥ 1 + 1; after any calls with
finite_periods disabled the flag is false. -/
theorem C6_done_amended_witness :
    (plannerDoneAll 3 3 = true ↔ (3 : ℕ) = 3) ∧
    (townsendDoneAll 3 2 = true ↔ (2 : ℕ) = 3) ∧
    ((diffDemandRun true 1 2).1 = true ↔ 1 + 1 ≤ 2) ∧
    (diffDemandRun false 1 2).1 = false :=
  ⟨C6_done_amended.1 3 3 (by norm_num),
   C6_done_amended.2.1 3 2 (by norm_num),
   C6_done_amended.2.2.2.1 1 2 (by norm_num),
   C6_done_amended.2.2.2.2 1 2⟩

/-- C6 counterexample: with `finite_periods = True` and `n_periods = 1`,
the first step call completes step number 1 = horizon, yet the returned
done flag is false (the counter compared was still 0), contradicting the
claim that done is all-true exactly when completed steps equal the
configured horizon. -/
theorem C6_diffdemand_counterexample :
    (diffDemandRun true 1 1).1 = false := by
  decide

/-- C7: in evaluation and analysis modes the shock values consumed at any
timestep t of an episode are a pure function of the mode and t, precomputed
at construction for every t from 0 through the horizon: the planner's
dictionary lookups succeed for every t up to the horizon and return the
closed-form schedule entries, and Townsend's lookups succeed and return
the variates of the generator seeded by the mode.  Since the embedded step
consumes nothing but the timestep, two runs of the same instance under the
same action sequence observe identical shock sequences, and no timestep's
draw is ever revisited or resampled. -/
theorem C7_eval_shocks_deterministic (pIdtc pAgg : ℚ) (nHH horizon t : ℕ)
    (ht : t ≤ horizon) :
    plannerStepShocksEval pIdtc pAgg nHH horizon t
      = some (plannerEvalIdtcIds pIdtc nHH t, plannerEvalAggId pAgg t) ∧
    plannerStepShocksAnalysis pIdtc pAgg nHH horizon t
      = some (plannerAnalysisIdtcIds pIdtc nHH t,
          plannerAnalysisAggId pAgg t) ∧
    (∀ (draw : ℕ → ℕ → ℝ) (seedEval seedAnalysis : ℕ) (evalMode : Bool)
        (nInd : ℕ),
      townsendStepShocksSeeded draw
          (townsendSeedUsed evalMode seedEval seedAnalysis) horizon nInd t
        = some ((List.range nInd).map (fun i =>
            draw (townsendSeedUsed evalMode seedEval seedAnalysis)
              (horizon + 1 + t * nInd + i)),
          draw (townsendSeedUsed evalMode seedEval seedAnalysis) t)) := by
  refine ⟨?_, ?_, fun draw se sa m nInd => ?_⟩
  · simp [plannerStepShocksEval, plannerEvalIdtcDict, plannerEvalAggDict,
      if_pos ht]
  · simp [plannerStepShocksAnalysis, plannerAnalysisIdtcDict,
      plannerAnalysisAggDict, if_pos ht]
  · simp [townsendStepShocksSeeded, townsendShocksIdtcSeeded,
      townsendShocksAggSeeded, if_pos ht]

/-- Witness for C7 with the default transition probabilities
(P01 = 1/10 idiosyncratic, 1/20 aggregate), two households, horizon 5,
timestep 3, and an arbitrary concrete generator. -/
theorem C7_eval_shocks_deterministic_witness :
    plannerStepShocksEval (1 / 10) (1 / 20) 2 5 3
      = some (plannerEvalIdtcIds (1 / 10) 2 3, plannerEvalAggId (1 / 20) 3) ∧
    townsendStepShocksSeeded (fun _ k => (k : ℝ))
        (townsendSeedUsed true 10 20) 5 2 3
      = some ((List.range 2).map (fun i =>
          (fun (_ : ℕ) (k : ℕ) => (k : ℝ)) (townsendSeedUsed true 10 20)
            (5 + 1 + 3 * 2 + i)),
        (fun (_ : ℕ) (k : ℕ) => (k : ℝ)) (townsendSeedUsed true 10 20) 3) :=
  ⟨(C7_eval_shocks_deterministic (1 / 10) (1 / 20) 2 5 3 (by norm_num)).1,
   (C7_eval_shocks_deterministic (1 / 10) (1 / 20) 2 5 3 (by norm_num)).2.2
     (fun _ k => (k : ℝ)) 10 20 true 2⟩

/-- C2: for every household i and capital good j the planner's next stock
is `stock_old * (1 - depreciation) + investment` where the investment is
derived from the decoded decisions through the square-root adjustment-cost
technology; for every Townsend industry the next stock is
`stock_old * (1 - depreciation) + s*y` clamped via the minimum with the
configured ceiling `max_cap`, and the quadratic adjustment-cost
transformation `phi * (k_new - k)^2` enters that variant's per-period
payoff. -/
theorem C2_capital_transition (delta phi maxCap : ℝ) (nHH : ℕ)
    (kIJ sIJ : List (List ℝ)) (y k s yT prices shockRent kNewT : List ℝ) :
    (∀ i j : ℕ, plannerKNewIJ delta phi nHH kIJ sIJ y i j
        = specNextStock ((kIJ.getD i []).getD j 0) delta
            ((plannerInvExpIJ sIJ y i j /
                max (plannerInvExpJ nHH sIJ y j) 0.0001) *
              Real.sqrt ((2 / phi) * plannerInvExpJ nHH sIJ y j))) ∧
    (∀ i : ℕ, townsendKNewAt delta maxCap k s yT i
        = min (specNextStock (k.getD i 0) delta
            (s.getD i 0 * yT.getD i 0)) maxCap) ∧
    (∀ i : ℕ, townsendUtilityAt phi prices s yT shockRent k kNewT i
        = prices.getD i 0 * (1 - s.getD i 0) * yT.getD i 0 -
            shockRent.getD i 0 * k.getD i 0 -
            phi * (kNewT.getD i 0 - k.getD i 0) ^ 2) :=
  ⟨fun _ _ => rfl, fun _ => rfl, fun _ => rfl⟩

/-- C3 (amended): in the planner's reward computation, an agent with
non-positive consumption receives utility equal to the NEGATION of the
configured penalty constant, `-bgt_penalty` (not `bgt_penalty` itself),
and never a logarithm-derived value; an agent with strictly positive
consumption receives `log(c_i)`. -/
theorem C3_penalty_amended (bgtPenalty c : ℝ) :
    (c ≤ 0 → plannerUtility bgtPenalty c = -bgtPenalty) ∧
    (0 < c → plannerUtility bgtPenalty c = Real.log c) := by
  constructor
  · intro h
    simp [plannerUtility, not_lt.mpr h]
  · intro h
    simp [plannerUtility, h]

/-- Witness for C3 at concrete inputs: consumption 0 with the default
`bgt_penalty = 1` yields utility -1; consumption 1 yields `log 1`. -/
theorem C3_penalty_amended_witness :
    plannerUtility 1 0 = -(1 : ℝ) ∧ plannerUtility 1 1 = Real.log 1 :=
  ⟨(C3_penalty_amended 1 0).1 (le_refl 0),
   (C3_penalty_amended 1 1).2 (by norm_num)⟩

/-- C3 counterexample: with the default configuration `bgt_penalty = 1`
and consumption 0, the utility the code computes is -1, not the configured
penalty constant 1 that the claim states. -/
theorem C3_sign_counterexample :
    plannerUtility 1 0 = -1 ∧ plannerUtility 1 0 ≠ 1 := by
  have h : plannerUtility 1 0 = -1 := by
    simp [plannerUtility]
  exact ⟨h, by rw [h]; norm_num⟩

theorem getD_range_map {α : Type} (f : ℕ → α) (d : α) (n i : ℕ)
    (h : i < n) : ((List.range n).map f).getD i d = f i := by
  simp [List.getD, List.getElem?_map, List.getElem?_range h]

/-- C8: in DiffDemandDiscrete.step, agent i's price is
`lower_i + (higher_i - lower_i) * action_i / (gridpoints - 1)`, its market
share is `e^((value_i - price_i)/mu)` divided by `e^(ext_demand/mu)` plus
the sum over all agents of `e^((value_j - price_j)/mu)`, and its reward is
`(price_i - cost_i)` times that share.  All quantities are pure functions
of the joint action vector and the construction-time configuration; no
state beyond the step counter enters. -/
theorem C8_logit_reward (lower higher cost values prices : List ℝ)
    (gridpoints : ℕ) (acts : List ℕ) (mu extDemand : ℝ) (n i : ℕ)
    (hi : i < n) :
    (diffPrices lower higher gridpoints acts n).getD i 0
      = lower.getD i 0 + (higher.getD i 0 - lower.getD i 0) *
          ((acts.getD i 0 : ℝ) / ((gridpoints : ℝ) - 1)) ∧
    diffRewardAt cost values prices mu extDemand n i
      = (prices.getD i 0 - cost.getD i 0) *
          (Real.exp ((values.getD i 0 - prices.getD i 0) / mu) /
            (Real.exp (extDemand / mu) +
              ((List.range n).map (fun j =>
                Real.exp ((values.getD j 0 - prices.getD j 0) / mu))).sum)) := by
  constructor
  · rw [diffPrices, getD_range_map _ _ _ _ hi]
    rfl
  · unfold diffRewardAt diffDenom diffNotnormAt
    simp only [Real.exp_one_rpow]
    rw [mul_div_assoc]

/-- Witness for C8 with two agents: unit costs and values, prices on a
16-point grid between 1 and 2, both agents playing action 7. -/
theorem C8_logit_reward_witness :
    (diffPrices [1, 1] [2, 2] 16 [7, 7] 2).getD 0 0
      = (1 : ℝ) + ((2 : ℝ) - 1) * (((7 : ℕ) : ℝ) / ((16 : ℝ) - 1)) ∧
    diffRewardAt [1, 1] [2, 2] [1, 1] (1 / 4) 0 2 0
      = ((1 : ℝ) - 1) *
          (Real.exp (((2 : ℝ) - 1) / (1 / 4)) /
            (Real.exp (0 / (1 / 4)) +
              ((List.range 2).map (fun j =>
                Real.exp ((List.getD [(2 : ℝ), 2] j 0 -
                  List.getD [(1 : ℝ), 1] j 0) / (1 / 4)))).sum)) := by
  have h := C8_logit_reward [1, 1] [2, 2] [1, 1] [2, 2] [1, 1] 16 [7, 7]
    (1 / 4) 0 2 0 (by norm_num)
  constructor
  · have h1 := h.1
    simpa using h1
  · have h2 := h.2
    simpa using h2

/-- C10: for every action component in `[-1, 1]` and every non-negative
capital observation (indeed for every real input), Durable_sgm.step is
total: income is floored at 1e-5, the consumption passed to the utility
function is the floored value `max(y * (1 - s), 1e-5)`, which is strictly
positive, so the abstract utility is never evaluated at a non-positive
argument, and the returned reward is the clamp
`max(u(...) + 1, -1000)`, hence always at least -1000. -/
theorem C10_durable_safe (u : ℝ → ℝ) (tfp alpha maxSaving k a : ℝ)
    (ha1 : -1 ≤ a) (ha2 : a ≤ 1) (hk : 0 ≤ k) :
    0.00001 ≤ durableY tfp alpha k ∧
    0.00001 ≤ durableUtilArg tfp alpha maxSaving k a ∧
    0 < durableUtilArg tfp alpha maxSaving k a ∧
    durableRew u tfp alpha maxSaving k a
      = max (u (durableUtilArg tfp alpha maxSaving k a) + 1) (-1000) ∧
    -1000 ≤ durableRew u tfp alpha maxSaving k a := by
  refine ⟨le_max_right _ _, le_max_right _ _, ?_, rfl, le_max_right _ _⟩
  exact lt_of_lt_of_le (by norm_num) (le_max_right _ _)

/-- Witness for C10 at the identity utility, unit technology, the default
`max_saving = 0.2`, capital 1 and action 0. -/
theorem C10_durable_safe_witness :
    0.00001 ≤ durableY 1 1 1 ∧
    0.00001 ≤ durableUtilArg 1 1 0.2 1 0 ∧
    0 < durableUtilArg 1 1 0.2 1 0 ∧
    durableRew id 1 1 0.2 1 0
      = max (id (durableUtilArg 1 1 0.2 1 0) + 1) (-1000) ∧
    -1000 ≤ durableRew id 1 1 0.2 1 0 :=
  C10_durable_safe id 1 1 0.2 1 0 (by norm_num) (by norm_num) (by norm_num)

/-- C9 (amended): the planner's info dictionary is empty unless analysis
mode is enabled, and when enabled it holds one entry per agent with the
designated household hh_0 carrying the cross-agent aggregate lists; the
Townsend info dictionary is empty unless analysis OR simulation mode is
enabled; but DiffDemandDiscrete.step unconditionally returns the per-agent
prices (non-empty whenever there is at least one agent) and
Durable_sgm.step unconditionally returns a non-empty diagnostic record,
though neither environment has an analysis mode. -/
theorem C9_info_amended (nHH nInd n : ℕ) (sIJ kIJ kNew : List (List ℝ))
    (meanU sD rewD yD kOldD kNewD : ℝ) (y c sT uT yT kT kNT pT prices : List ℝ)
    (flags : List ℕ) :
    plannerInfo false nHH sIJ meanU y c flags kIJ kNew = [] ∧
    plannerInfo true nHH sIJ meanU y c flags kIJ kNew
      = (0, PlannerInfoEntry.glob sIJ meanU y c flags kIJ kNew) ::
          (List.range (nHH - 1)).map (fun m =>
            (m + 1, PlannerInfoEntry.ind (sIJ.getD (m + 1) []) meanU
              (y.getD (m + 1) 0) (c.getD (m + 1) 0) (flags.getD (m + 1) 0)
              (kIJ.getD (m + 1) []) (kNew.getD (m + 1) []))) ∧
    townsendInfo false false nInd sT uT yT kT kNT pT = [] ∧
    (1 ≤ n → diffInfo prices n ≠ []) ∧
    durableInfo sD rewD yD kOldD kNewD ≠ [] := by
  refine ⟨rfl, by simp [plannerInfo], by simp [townsendInfo], fun hn => ?_,
    by simp [durableInfo]⟩
  intro hempty
  have hlen := congrArg List.length hempty
  simp [diffInfo] at hlen
  omega

/-- Witness for C9 at concrete inputs: one diff-demand agent already makes
the info dictionary non-empty. -/
theorem C9_info_amended_witness :
    plannerInfo false 2 [] 0 [] [] [] [] [] = [] ∧
    diffInfo [1] 1 ≠ [] :=
  ⟨(C9_info_amended 2 1 1 [] [] [] 0 0 0 0 0 0 [] [] [] [] [] [] [] []
      [1] []).1,
   (C9_info_amended 2 1 1 [] [] [] 0 0 0 0 0 0 [] [] [] [] [] [] [] []
      [1] []).2.2.2.1 (by norm_num)⟩

/-- C9 counterexample: Durable_sgm has no analysis mode at all, yet its
step info is never empty — at any concrete inputs it is the five-entry
diagnostic record, contradicting the claim that the info dictionary is
empty for every environment unless an analysis or diagnostic mode is
enabled. -/
theorem C9_durable_counterexample :
    durableInfo 0 0 0 0 0 ≠ [] := by
  simp [durableInfo]

/-- C5: Townsend.reset never returns an initial observation in any mode:
its very first computation reads `self.n_firms`, an attribute no method of
the class ever assigns, so the attribute lookup fails (AttributeError) and
reset aborts for every mode and every configuration, contradicting the
claim that reset terminates normally and returns an initial per-agent
observation for every environment of the family. -/
theorem C5_townsend_reset_fails (evalMode analysisMode : Bool)
    (horizon nIndustries seedEval seedAnalysis : ℕ)
    (kSs maxPrice A tfp alpha theta0 : ℝ) (draw : ℕ → ℕ → ℝ)
    (drawUnif drawIdtc : ℕ → ℝ) :
    townsendReset evalMode analysisMode horizon nIndustries seedEval
      seedAnalysis kSs maxPrice A tfp alpha theta0 draw drawUnif drawIdtc
      = none := by
  simp [townsendReset, townsendGetNatAttr]
